import Mathlib

/-!
Verification of the TinyBMS serial protocol core
(`src/Exemple/test_tinybms.py`): CRC-16 Modbus, frame builders, and
response parsing for register read/write exchanges.

Bytes are modelled as `Nat` (with explicit `&&& 0xFF` masking where the
source masks), byte buffers as `List Nat`.  The parsing functions embed
the pure decision structure of `read_register` / `write_register`: the
source distinguishes its outcomes by distinct print-and-return branches
(a decoded value, an ACK, a NACK with error code, an invalid/CRC-failed
response, or a timeout when no bytes arrived), which we represent with
explicit outcome types.
-/

namespace TinyBMS

/-- One iteration of the inner loop of `crc16_modbus`:
`if crc & 0x0001: crc = (crc >> 1) ^ 0xA001 else: crc >>= 1`. -/
def crcStep (crc : Nat) : Nat :=
  if crc &&& 0x0001 ≠ 0 then (crc >>> 1) ^^^ 0xA001 else crc >>> 1

/-- `for _ in range(k)` applications of `crcStep`. -/
def crcRounds : Nat → Nat → Nat
  | 0, crc => crc
  | k + 1, crc => crcRounds k (crcStep crc)

/-- Processing one input byte: `crc ^= byte` followed by 8 shift rounds. -/
def crcUpdate (crc byte : Nat) : Nat :=
  crcRounds 8 (crc ^^^ byte)

/-- `crc16_modbus(data)` from the source: accumulator starts at 0xFFFF and
each byte is folded in via `crcUpdate`. -/
def crc16_modbus (data : List Nat) : Nat :=
  data.foldl crcUpdate 0xFFFF

/-- One bit-serial step of the standard (reflected, polynomial 0xA001,
init 0xFFFF) Modbus CRC-16 register, consuming a single message bit:
XOR the incoming bit into the register's low bit, then shift right,
feeding back the polynomial when the ejected bit was 1.  This is the
textbook bit-at-a-time reference formulation of CRC-16/MODBUS. -/
def crcBitStep (crc bit : Nat) : Nat :=
  if (crc ^^^ bit) &&& 0x0001 ≠ 0 then (crc >>> 1) ^^^ 0xA001 else crc >>> 1

/-- The `k` low bits of a byte, least significant first (Modbus transmits
bits LSB-first). -/
def bitsOf : Nat → Nat → List Nat
  | _, 0 => []
  | b, k + 1 => (b &&& 1) :: bitsOf (b >>> 1) k

/-- Reference Modbus CRC-16: feed every byte of the message through the
bit-serial register, 8 bits per byte, least significant bit first. -/
def crc16_ref (data : List Nat) : Nat :=
  data.foldl (fun crc b => (bitsOf b 8).foldl crcBitStep crc) 0xFFFF

/-- `build_read_frame(address)`: `[0xAA, 0x09, 0x02, addrLSB, addrMSB]`
followed by the CRC of those 5 bytes, LSB then MSB. -/
def build_read_frame (address : Nat) : List Nat :=
  let frame := [0xAA, 0x09, 0x02, address &&& 0xFF, (address >>> 8) &&& 0xFF]
  let crc := crc16_modbus frame
  frame ++ [crc &&& 0xFF, (crc >>> 8) &&& 0xFF]

/-- `build_write_frame(address, value)`: `[0xAA, 0x0D, 0x04, addrLSB,
addrMSB, valLSB, valMSB]` followed by the CRC of those 7 bytes, LSB then
MSB. -/
def build_write_frame (address value : Nat) : List Nat :=
  let frame := [0xAA, 0x0D, 0x04, address &&& 0xFF, (address >>> 8) &&& 0xFF,
    value &&& 0xFF, (value >>> 8) &&& 0xFF]
  let crc := crc16_modbus frame
  frame ++ [crc &&& 0xFF, (crc >>> 8) &&& 0xFF]

/-- Outcome of parsing a read response, mirroring the distinct branches of
`read_register`: decoded value, NACK with error code, invalid /
CRC-mismatched / unrecoverable response (all reported as failure), or
timeout (no bytes received). -/
inductive ReadOutcome where
  | value : Nat → ReadOutcome
  | nack : Nat → ReadOutcome
  | malformed : ReadOutcome
  | timeout : ReadOutcome
  deriving DecidableEq, Repr

/-- `true` exactly on `ReadOutcome.value`. -/
def ReadOutcome.isValue : ReadOutcome → Bool
  | .value _ => true
  | _ => false

/-- The debug-noise recovery scan of `read_register`:
`for i in range(len(response) - 9): if response[i] == 0xAA and
response[i+1] == 0x09: ... break`, returning the first matching offset.
`i` is the current offset, `fuel` the number of loop iterations left. -/
def findReadFrameAux (resp : List Nat) : Nat → Nat → Option Nat
  | _, 0 => none
  | i, fuel + 1 =>
    if resp.getD i 0 = 0xAA ∧ resp.getD (i + 1) 0 = 0x09 then some i
    else findReadFrameAux resp (i + 1) fuel

/-- First offset of the `[0xAA, 0x09]` signature among offsets
`0 .. len(resp) - 10` (the source iterates `range(len(response) - 9)`). -/
def findReadFrame (resp : List Nat) : Option Nat :=
  findReadFrameAux resp 0 (resp.length - 9)

/-- Lines 123-148 of the source: the read-response validation applied to
the (possibly recovery-sliced) buffer.  Header `[0xAA, 0x09]` with
length ≥ 9 leads to the CRC check — the received CRC is composed
MSB-first from the two trailing bytes, the computed CRC covers all but
the trailing two — and on success the value is decoded from bytes 5
(LSB) and 6 (MSB).  Otherwise a `[0xAA, 0x00]` header of length ≥ 3 is a
NACK whose error code sits at offset 2 (the `len > 2` guard of the
source is kept verbatim even though the enclosing `len ≥ 3` makes it
always true); anything else is reported as invalid. -/
def parse_read_core (resp : List Nat) : ReadOutcome :=
  if 9 ≤ resp.length ∧ resp.getD 0 0 = 0xAA ∧ resp.getD 1 0 = 0x09 then
    -- received_crc = (response[-1] << 8) | response[-2],
    -- calculated_crc = crc16_modbus(response[:-2])
    if (resp.getD (resp.length - 1) 0 <<< 8) ||| resp.getD (resp.length - 2) 0 ≠
        crc16_modbus (resp.take (resp.length - 2)) then .malformed
    else .value ((resp.getD 6 0 <<< 8) ||| resp.getD 5 0)
  else if 3 ≤ resp.length ∧ resp.getD 0 0 = 0xAA ∧ resp.getD 1 0 = 0x00 then
    .nack (if 2 < resp.length then resp.getD 2 0 else 0xFF)
  else .malformed

/-- The full read-response parse of `read_register`: no bytes → timeout;
more than 100 bytes → debug-noise recovery (slice the 9-byte window
`response[i:i+9]` at the first `[0xAA, 0x09]` signature, or fail when
none is found); then the core validation. -/
def parse_read_response (response : List Nat) : ReadOutcome :=
  if response.length = 0 then .timeout
  else if 100 < response.length then
    match findReadFrame response with
    | some i => parse_read_core ((response.drop i).take 9)
    | none => .malformed
  else parse_read_core response

/-- Outcome of parsing a write response, mirroring the branches of
`write_register`: ACK, NACK with error code, invalid / unrecoverable
response, or timeout. -/
inductive WriteOutcome where
  | ack : WriteOutcome
  | nack : Nat → WriteOutcome
  | malformed : WriteOutcome
  | timeout : WriteOutcome
  deriving DecidableEq, Repr

/-- The debug-noise recovery scan of `write_register`:
`for i in range(len(response) - 3)` searching for `0xAA` followed by
`0x01` (ACK) or `0x00` (NACK). -/
def findWriteFrameAux (resp : List Nat) : Nat → Nat → Option Nat
  | _, 0 => none
  | i, fuel + 1 =>
    if resp.getD i 0 = 0xAA ∧ (resp.getD (i + 1) 0 = 0x01 ∨ resp.getD (i + 1) 0 = 0x00)
    then some i
    else findWriteFrameAux resp (i + 1) fuel

/-- First offset of an ACK/NACK signature among offsets
`0 .. len(resp) - 4` (the source iterates `range(len(response) - 3)`). -/
def findWriteFrame (resp : List Nat) : Option Nat :=
  findWriteFrameAux resp 0 (resp.length - 3)

/-- Lines 199-217 of the source: write-response validation.  Requires
length ≥ 3 and first byte 0xAA; second byte 0x01 is an ACK, second byte
0x00 a NACK whose error code is read at offset 3 — `response[3] if
len(response) > 3 else 0xFF` — and any other second byte falls through
the `if/elif` with no success outcome (modelled as malformed, like the
explicit invalid-response branch). -/
def parse_write_core (resp : List Nat) : WriteOutcome :=
  if 3 ≤ resp.length ∧ resp.getD 0 0 = 0xAA then
    if resp.getD 1 0 = 0x01 then .ack
    else if resp.getD 1 0 = 0x00 then
      .nack (if 3 < resp.length then resp.getD 3 0 else 0xFF)
    else .malformed
  else .malformed

/-- The full write-response parse of `write_register`: no bytes →
timeout; more than 100 bytes → recovery slicing the 5-byte window at the
first ACK/NACK signature (or failure); then the core validation. -/
def parse_write_response (response : List Nat) : WriteOutcome :=
  if response.length = 0 then .timeout
  else if 100 < response.length then
    match findWriteFrame response with
    | some i => parse_write_core ((response.drop i).take 5)
    | none => .malformed
  else parse_write_core response

/-- A synthetically constructed valid read-response frame carrying a
value: `[0xAA, 0x09, 0x02, addr_lsb, addr_msb, vlsb, vmsb]` followed by
the Modbus CRC of those 7 bytes, LSB first then MSB. -/
def read_response_frame (addr_lsb addr_msb vlsb vmsb : Nat) : List Nat :=
  let body := [0xAA, 0x09, 0x02, addr_lsb, addr_msb, vlsb, vmsb]
  let crc := crc16_modbus body
  body ++ [crc &&& 0xFF, (crc >>> 8) &&& 0xFF]

/-! ### Basic bit-arithmetic helper lemmas -/

/-- Masking with `0xFF` yields a byte. -/
theorem and_ff_lt (x : Nat) : x &&& 0xFF < 256 := by
  have e := Nat.and_pow_two_sub_one_eq_mod x 8
  norm_num at e
  rw [e]
  omega

/-- Right shift distributes over XOR. -/
theorem shiftRight_xor_distrib (x y n : Nat) :
    (x ^^^ y) >>> n = (x >>> n) ^^^ (y >>> n) := by
  apply Nat.eq_of_testBit_eq
  intro i
  simp [Nat.testBit_shiftRight, Nat.testBit_xor]

/-- Splitting a 16-bit value into its two bytes and re-composing them
MSB-first gives the value back. -/
theorem byte_recompose {x : Nat} (h : x < 2 ^ 16) :
    (((x >>> 8) &&& 0xFF) <<< 8) ||| (x &&& 0xFF) = x := by
  have e1 : x &&& 0xFF = x % 256 := by
    have e := Nat.and_pow_two_sub_one_eq_mod x 8
    norm_num at e
    exact e
  have e2 : (x >>> 8) &&& 0xFF = x / 256 := by
    have e := Nat.and_pow_two_sub_one_eq_mod (x >>> 8) 8
    norm_num at e
    rw [e, Nat.shiftRight_eq_div_pow]
    norm_num
    norm_num at h
    omega
  have h256 : x % 256 < 2 ^ 8 := by norm_num; omega
  have key := Nat.mul_add_lt_is_or h256 (x / 256)
  rw [e1, e2, Nat.shiftLeft_eq]
  norm_num at key ⊢
  rw [Nat.mul_comm, ← key]
  omega

/-! ### CRC lemmas: 16-bit boundedness and agreement with the bit-serial
reference formulation -/

/-- `crcStep` keeps the accumulator within 16 bits. -/
theorem crcStep_lt {c : Nat} (h : c < 2 ^ 16) : crcStep c < 2 ^ 16 := by
  unfold crcStep
  have h1 : c >>> 1 < 2 ^ 16 := by
    rw [Nat.shiftRight_eq_div_pow]
    exact lt_of_le_of_lt (Nat.div_le_self _ _) h
  split
  · exact Nat.xor_lt_two_pow h1 (by norm_num)
  · exact h1

/-- `crcRounds` keeps the accumulator within 16 bits. -/
theorem crcRounds_lt : ∀ (k : Nat) {c : Nat}, c < 2 ^ 16 → crcRounds k c < 2 ^ 16
  | 0, _, h => h
  | k + 1, _, h => crcRounds_lt k (crcStep_lt h)

/-- Folding `crcUpdate` over any byte list keeps the accumulator within
16 bits. -/
theorem crc_foldl_lt : ∀ (data : List Nat) {c : Nat}, c < 2 ^ 16 →
    (∀ b ∈ data, b < 256) → data.foldl crcUpdate c < 2 ^ 16
  | [], _, h, _ => h
  | b :: rest, c, h, hb => by
    simp only [List.foldl_cons]
    apply crc_foldl_lt rest
    · apply crcRounds_lt
      exact Nat.xor_lt_two_pow h (lt_trans (hb b (by simp)) (by norm_num))
    · exact fun x hx => hb x (by simp [hx])

/-- `crc16_modbus` of a byte list is a 16-bit value. -/
theorem crc16_modbus_lt {data : List Nat} (h : ∀ b ∈ data, b < 256) :
    crc16_modbus data < 2 ^ 16 :=
  crc_foldl_lt data (by norm_num) h

/-- The low bit of an XOR only depends on the low bit of each operand. -/
theorem and_one_xor (c b : Nat) : (c ^^^ b) &&& 1 = (c ^^^ (b &&& 1)) &&& 1 := by
  rw [Nat.and_xor_distrib_right, Nat.and_xor_distrib_right, Nat.and_assoc]
  norm_num

/-- One byte-at-once CRC step on `c ^^^ b` is one bit-serial step on the
low bit of `b`, with the remaining bits of `b` carried along as a
pending XOR. -/
theorem crcStep_xor (c b : Nat) :
    crcStep (c ^^^ b) = crcBitStep c (b &&& 1) ^^^ (b >>> 1) := by
  unfold crcStep crcBitStep
  rw [show ((c ^^^ b) &&& 0x0001) = ((c ^^^ (b &&& 1)) &&& 0x0001) from and_one_xor c b]
  by_cases h : (c ^^^ (b &&& 1)) &&& 0x0001 ≠ 0
  · rw [if_pos h, if_pos h, shiftRight_xor_distrib]
    rw [Nat.xor_assoc, Nat.xor_comm (b >>> 1) 0xA001, ← Nat.xor_assoc]
  · rw [if_neg h, if_neg h, shiftRight_xor_distrib]

/-- `k` byte-at-once rounds on `c ^^^ b` equal `k` bit-serial steps fed
with the `k` low bits of `b`, with the still-unconsumed high bits of `b`
as a pending XOR. -/
theorem crcRounds_xor_eq : ∀ (k c b : Nat),
    crcRounds k (c ^^^ b) = (bitsOf b k).foldl crcBitStep c ^^^ (b >>> k)
  | 0, c, b => by simp [crcRounds, bitsOf]
  | k + 1, c, b => by
    show crcRounds k (crcStep (c ^^^ b)) = _
    rw [crcStep_xor, crcRounds_xor_eq k (crcBitStep c (b &&& 1)) (b >>> 1)]
    simp only [bitsOf, List.foldl_cons]
    rw [← Nat.shiftRight_add, Nat.add_comm 1 k]

/-- Absorbing one whole byte (`crc ^= byte` then 8 shift rounds) equals
feeding the byte's 8 bits LSB-first through the bit-serial register. -/
theorem crcUpdate_eq_bits (c : Nat) {b : Nat} (hb : b < 256) :
    crcUpdate c b = (bitsOf b 8).foldl crcBitStep c := by
  unfold crcUpdate
  rw [crcRounds_xor_eq 8 c b]
  have hz : b >>> 8 = 0 := by
    rw [Nat.shiftRight_eq_div_pow]
    norm_num
    omega
  rw [hz, Nat.xor_zero]

/-- The two CRC folds agree on byte lists from any common accumulator. -/
theorem crc_foldl_eq : ∀ (data : List Nat) (c : Nat), (∀ b ∈ data, b < 256) →
    data.foldl crcUpdate c =
      data.foldl (fun crc b => (bitsOf b 8).foldl crcBitStep crc) c
  | [], _, _ => rfl
  | b :: rest, c, h => by
    simp only [List.foldl_cons]
    rw [crcUpdate_eq_bits c (h b (by simp))]
    exact crc_foldl_eq rest _ (fun x hx => h x (by simp [hx]))

/-! ### Parsing helper lemmas -/

/-- On a non-empty buffer of at most 100 bytes the read parse is exactly
the core validation (no timeout, no recovery). -/
theorem parse_read_response_eq_core {resp : List Nat} (h1 : resp.length ≠ 0)
    (h2 : resp.length ≤ 100) : parse_read_response resp = parse_read_core resp := by
  unfold parse_read_response
  rw [if_neg h1, if_neg (by omega)]

/-- On an oversized buffer whose signature scan succeeds, the read parse
is the core validation of the sliced 9-byte window. -/
theorem parse_read_response_recover {resp : List Nat} {i : Nat} (hlen : 100 < resp.length)
    (hfind : findReadFrame resp = some i) :
    parse_read_response resp = parse_read_core ((resp.drop i).take 9) := by
  unfold parse_read_response
  rw [if_neg (by omega), if_pos hlen, hfind]

/-- On an oversized buffer whose signature scan fails, the read parse
reports a failure. -/
theorem parse_read_response_no_frame {resp : List Nat} (hlen : 100 < resp.length)
    (hfind : findReadFrame resp = none) :
    parse_read_response resp = .malformed := by
  unfold parse_read_response
  rw [if_neg (by omega), if_pos hlen, hfind]

/-- The core validation decodes a structurally valid 9-byte frame with a
matching CRC trailer to the value carried in bytes 5 and 6. -/
theorem parse_read_core_valid {frame : List Nat} (hlen : frame.length = 9)
    (h0 : frame.getD 0 0 = 0xAA) (h1 : frame.getD 1 0 = 0x09)
    (hcrc : (frame.getD 8 0 <<< 8) ||| frame.getD 7 0 = crc16_modbus (frame.take 7)) :
    parse_read_core frame = .value ((frame.getD 6 0 <<< 8) ||| frame.getD 5 0) := by
  unfold parse_read_core
  simp only [hlen]
  simp only [List.getD_eq_getElem?_getD] at h0 h1 hcrc
  norm_num [h0, h1, hcrc]

/-- If no offset in the scanned window carries the `[0xAA, 0x09]`
signature, the scan fails. -/
theorem findReadFrameAux_none (resp : List Nat) : ∀ (fuel i : Nat),
    (∀ j, j < fuel → ¬(resp.getD (i + j) 0 = 0xAA ∧ resp.getD (i + j + 1) 0 = 0x09)) →
    findReadFrameAux resp i fuel = none
  | 0, _, _ => rfl
  | fuel + 1, i, h => by
    unfold findReadFrameAux
    rw [if_neg (by simpa using h 0 (by omega))]
    apply findReadFrameAux_none resp fuel (i + 1)
    intro j hj
    have hh := h (j + 1) (by omega)
    rw [show i + (j + 1) = i + 1 + j from by omega] at hh
    exact hh

/-- The scan returns the first offset carrying the `[0xAA, 0x09]`
signature, provided that offset lies inside the scanned window. -/
theorem findReadFrameAux_found (resp : List Nat) : ∀ (k i fuel : Nat), k < fuel →
    (∀ j, j < k → ¬(resp.getD (i + j) 0 = 0xAA ∧ resp.getD (i + j + 1) 0 = 0x09)) →
    resp.getD (i + k) 0 = 0xAA → resp.getD (i + k + 1) 0 = 0x09 →
    findReadFrameAux resp i fuel = some (i + k)
  | 0, _, 0, hk, _, _, _ => absurd hk (by omega)
  | 0, i, fuel + 1, _, _, hA, h9 => by
    unfold findReadFrameAux
    rw [if_pos ⟨by simpa using hA, by simpa using h9⟩]
    simp
  | k + 1, _, 0, hk, _, _, _ => absurd hk (by omega)
  | k + 1, i, fuel + 1, hk, hnone, hA, h9 => by
    unfold findReadFrameAux
    rw [if_neg (by simpa using hnone 0 (by omega))]
    have ih := findReadFrameAux_found resp k (i + 1) fuel (by omega)
      (fun j hj => by
        have hh := hnone (j + 1) (by omega)
        rw [show i + (j + 1) = i + 1 + j from by omega] at hh
        exact hh)
      (by rw [show i + 1 + k = i + (k + 1) from by omega]; exact hA)
      (by rw [show i + 1 + k + 1 = i + (k + 1) + 1 from by omega]; exact h9)
    rw [ih]
    congr 1
    omega

/-! ### The claims -/

/-- C1: for all byte values, parsing the synthetically constructed valid
9-byte read-response frame `[0xAA, 0x09, 0x02, addr_lsb, addr_msb, vlsb,
vmsb, crc_lsb, crc_msb]` (trailer = Modbus CRC of the first 7 bytes, LSB
first) as a read response yields `Value v` with `v = (vmsb <<< 8) |||
vlsb`; every 16-bit value and address arises this way. -/
theorem C1_read_roundtrip (al am vl vm : Nat)
    (hal : al < 256) (ham : am < 256) (hvl : vl < 256) (hvm : vm < 256) :
    parse_read_response (read_response_frame al am vl vm) =
      .value ((vm <<< 8) ||| vl) := by
  have hbytes : ∀ b ∈ [0xAA, 0x09, 0x02, al, am, vl, vm], b < 256 := by
    intro b hb
    simp at hb
    rcases hb with h | h | h | h | h | h | h <;> omega
  have hcrc_lt : crc16_modbus [0xAA, 0x09, 0x02, al, am, vl, vm] < 2 ^ 16 :=
    crc16_modbus_lt hbytes
  have hlen : (read_response_frame al am vl vm).length = 9 := by
    simp [read_response_frame]
  rw [parse_read_response_eq_core (by omega) (by omega)]
  have h0 : (read_response_frame al am vl vm).getD 0 0 = 0xAA := rfl
  have h1 : (read_response_frame al am vl vm).getD 1 0 = 0x09 := rfl
  have hcrc : ((read_response_frame al am vl vm).getD 8 0 <<< 8) |||
      (read_response_frame al am vl vm).getD 7 0 =
      crc16_modbus ((read_response_frame al am vl vm).take 7) :=
    byte_recompose hcrc_lt
  rw [parse_read_core_valid hlen h0 h1 hcrc]
  rfl

/-- C1 witness: the spec's end-to-end example — the frame for address
0x0157 with value bytes 0x64, 0x00 parses to `Value 100`. -/
theorem C1_read_roundtrip_witness :
    parse_read_response (read_response_frame 0x57 0x01 0x64 0x00) =
      .value 100 :=
  C1_read_roundtrip 0x57 0x01 0x64 0x00 (by norm_num) (by norm_num)
    (by norm_num) (by norm_num)

set_option maxRecDepth 8192 in
/-- C2: `crc16_modbus` implements the standard Modbus CRC-16: on every
byte sequence it agrees with the bit-serial reference register
(init 0xFFFF, reflected polynomial 0xA001, bits LSB-first) and its
result is a 16-bit value; it also reproduces the standard check value
0x4B37 on the ASCII bytes of "123456789". -/
theorem C2_crc16_standard :
    (∀ data : List Nat, (∀ b ∈ data, b < 256) →
        crc16_modbus data = crc16_ref data ∧ crc16_modbus data < 2 ^ 16) ∧
    crc16_modbus [0x31, 0x32, 0x33, 0x34, 0x35, 0x36, 0x37, 0x38, 0x39] = 0x4B37 := by
  refine ⟨fun data h => ⟨crc_foldl_eq data 0xFFFF h, crc16_modbus_lt h⟩, by decide⟩

/-- C2 witness: the agreement and the 16-bit bound evaluated on a
concrete byte list (the read-request header bytes). -/
theorem C2_crc16_standard_witness :
    crc16_modbus [0xAA, 0x09, 0x02] = crc16_ref [0xAA, 0x09, 0x02] ∧
      crc16_modbus [0xAA, 0x09, 0x02] < 2 ^ 16 :=
  C2_crc16_standard.1 [0xAA, 0x09, 0x02] (by decide)

/-- C3: for every 16-bit address, `build_read_frame` returns exactly 7
bytes: `[0xAA, 0x09, 0x02, addrLSB, addrMSB]` followed by the Modbus CRC
of those first 5 bytes, LSB first then MSB. -/
theorem C3_build_read_frame_layout (a : Nat) (ha : a < 2 ^ 16) :
    (build_read_frame a).length = 7 ∧
    (build_read_frame a).take 5 = [0xAA, 0x09, 0x02, a &&& 0xFF, (a >>> 8) &&& 0xFF] ∧
    (build_read_frame a).drop 5 =
      [crc16_modbus ((build_read_frame a).take 5) &&& 0xFF,
        (crc16_modbus ((build_read_frame a).take 5) >>> 8) &&& 0xFF] :=
  ⟨rfl, rfl, rfl⟩

/-- C3 witness: the layout at the spec's example address 0x0157. -/
theorem C3_build_read_frame_layout_witness :
    (build_read_frame 0x0157).length = 7 ∧
    (build_read_frame 0x0157).take 5 =
      [0xAA, 0x09, 0x02, 0x0157 &&& 0xFF, (0x0157 >>> 8) &&& 0xFF] ∧
    (build_read_frame 0x0157).drop 5 =
      [crc16_modbus ((build_read_frame 0x0157).take 5) &&& 0xFF,
        (crc16_modbus ((build_read_frame 0x0157).take 5) >>> 8) &&& 0xFF] :=
  C3_build_read_frame_layout 0x0157 (by norm_num)

/-- C4: for every 16-bit address and value, `build_write_frame` returns
exactly 9 bytes: `[0xAA, 0x0D, 0x04, addrLSB, addrMSB, valLSB, valMSB]`
followed by the Modbus CRC of those first 7 bytes, LSB first then
MSB. -/
theorem C4_build_write_frame_layout (a v : Nat) (ha : a < 2 ^ 16) (hv : v < 2 ^ 16) :
    (build_write_frame a v).length = 9 ∧
    (build_write_frame a v).take 7 =
      [0xAA, 0x0D, 0x04, a &&& 0xFF, (a >>> 8) &&& 0xFF, v &&& 0xFF, (v >>> 8) &&& 0xFF] ∧
    (build_write_frame a v).drop 7 =
      [crc16_modbus ((build_write_frame a v).take 7) &&& 0xFF,
        (crc16_modbus ((build_write_frame a v).take 7) >>> 8) &&& 0xFF] :=
  ⟨rfl, rfl, rfl⟩

/-- C4 witness: the layout at address 0x012C with value 4200 (the spec's
interactive-mode example). -/
theorem C4_build_write_frame_layout_witness :
    (build_write_frame 0x012C 4200).length = 9 ∧
    (build_write_frame 0x012C 4200).take 7 =
      [0xAA, 0x0D, 0x04, 0x012C &&& 0xFF, (0x012C >>> 8) &&& 0xFF,
        4200 &&& 0xFF, (4200 >>> 8) &&& 0xFF] ∧
    (build_write_frame 0x012C 4200).drop 7 =
      [crc16_modbus ((build_write_frame 0x012C 4200).take 7) &&& 0xFF,
        (crc16_modbus ((build_write_frame 0x012C 4200).take 7) >>> 8) &&& 0xFF] :=
  C4_build_write_frame_layout 0x012C 4200 (by norm_num) (by norm_num)

/-- C5: a 150-byte read-response buffer whose only `[0xAA, 0x09]`
signature starts at offset 40 and carries a valid 9-byte frame there
triggers frame recovery (length exceeds the 100-byte debug-noise
threshold), slices the 9-byte window at offset 40, and yields the value
decoded from that frame. -/
theorem C5_debug_noise_recovery (pre frame post : List Nat)
    (hpre : pre.length = 40) (hframe : frame.length = 9) (hpost : post.length = 101)
    (h0 : frame.getD 0 0 = 0xAA) (h1 : frame.getD 1 0 = 0x09)
    (hcrc : (frame.getD 8 0 <<< 8) ||| frame.getD 7 0 = crc16_modbus (frame.take 7))
    (hearly : ∀ i, i < 40 →
      ¬((pre ++ (frame ++ post)).getD i 0 = 0xAA ∧
        (pre ++ (frame ++ post)).getD (i + 1) 0 = 0x09)) :
    parse_read_response (pre ++ (frame ++ post)) =
      .value ((frame.getD 6 0 <<< 8) ||| frame.getD 5 0) := by
  have hblen : (pre ++ (frame ++ post)).length = 150 := by
    simp [hpre, hframe, hpost]
  have h40 : (pre ++ (frame ++ post)).getD 40 0 = 0xAA := by
    rw [List.getD_append_right pre (frame ++ post) 0 40 (by omega), hpre]
    show (frame ++ post).getD 0 0 = 0xAA
    rw [List.getD_append frame post 0 0 (by omega)]
    exact h0
  have h41 : (pre ++ (frame ++ post)).getD 41 0 = 0x09 := by
    rw [List.getD_append_right pre (frame ++ post) 0 41 (by omega), hpre]
    show (frame ++ post).getD 1 0 = 0x09
    rw [List.getD_append frame post 0 1 (by omega)]
    exact h1
  have hfind : findReadFrame (pre ++ (frame ++ post)) = some 40 := by
    unfold findReadFrame
    rw [hblen]
    norm_num
    have h := findReadFrameAux_found (pre ++ (frame ++ post)) 40 0 141 (by omega)
      (fun j hj => by simpa using hearly j hj)
      (by simpa using h40) (by simpa using h41)
    simpa using h
  have hdrop : (pre ++ (frame ++ post)).drop 40 = frame ++ post := List.drop_left' hpre
  have htake : (frame ++ post).take 9 = frame := List.take_left' hframe
  rw [parse_read_response_recover (by omega) hfind, hdrop, htake]
  exact parse_read_core_valid hframe h0 h1 hcrc

set_option maxRecDepth 8192 in
/-- C5 witness: 40 zero bytes, then the valid frame for address 0x0157
with value 100, then 101 zero bytes — 150 bytes in total — parse to
`Value 100`. -/
theorem C5_debug_noise_recovery_witness :
    parse_read_response (List.replicate 40 0 ++ (read_response_frame 0x57 0x01 0x64 0x00 ++
      List.replicate 101 0)) = .value 100 := by
  have h := C5_debug_noise_recovery (List.replicate 40 0)
    (read_response_frame 0x57 0x01 0x64 0x00) (List.replicate 101 0)
    (by decide) (by decide) (by decide) (by decide) (by decide) (by decide) (by decide)
  rw [h]
  decide

/-- C6 counterexample: the exact 3-byte buffer `[0xAA, 0x00, 0x03]`
parsed as a write response does not yield `Nack 0x03` (OutOfRange). -/
theorem C6_counterexample :
    parse_write_response [0xAA, 0x00, 0x03] ≠ WriteOutcome.nack 0x03 := by decide

/-- C6 amended: the write parser reads the NACK error code at offset 3,
so the 3-byte buffer `[0xAA, 0x00, 0x03]` is too short and decodes to
`Nack 0xFF` (Unknown); a buffer carrying 0x03 at offset 3 decodes to
`Nack 0x03` (OutOfRange). -/
theorem C6_write_nack_offset3 :
    parse_write_response [0xAA, 0x00, 0x03] = WriteOutcome.nack 0xFF ∧
    parse_write_response [0xAA, 0x00, 0x00, 0x03] = WriteOutcome.nack 0x03 := by decide

/-- C7 counterexample: the exact 2-byte buffer `[0xAA, 0x01]` parsed as
a write response does not yield `Ack`. -/
theorem C7_counterexample :
    parse_write_response [0xAA, 0x01] ≠ WriteOutcome.ack := by decide

/-- C7 amended: the write parser requires at least 3 bytes, so the
2-byte buffer `[0xAA, 0x01]` is reported as malformed; any 3-byte buffer
starting `[0xAA, 0x01]` yields `Ack`. -/
theorem C7_write_ack_needs_three_bytes :
    parse_write_response [0xAA, 0x01] = WriteOutcome.malformed ∧
    ∀ b : Nat, parse_write_response [0xAA, 0x01, b] = WriteOutcome.ack := by
  refine ⟨by decide, fun b => rfl⟩

/-- C7 witness: a concrete 3-byte ACK buffer. -/
theorem C7_write_ack_needs_three_bytes_witness :
    parse_write_response [0xAA, 0x01, 0x00] = WriteOutcome.ack :=
  C7_write_ack_needs_three_bytes.2 0x00

set_option maxRecDepth 8192 in
/-- C8 counterexample: corrupting byte 1 of the valid frame for address
0x0157 / value 100 from 0x09 to 0x00 gives a buffer that does not parse
to a `Value`, yet parses to `Nack 0x02`, not `Malformed`. -/
theorem C8_counterexample :
    parse_read_response (read_response_frame 0x57 0x01 0x64 0x00) = ReadOutcome.value 100 ∧
    (read_response_frame 0x57 0x01 0x64 0x00).getD 1 0 = 0x09 ∧
    ((read_response_frame 0x57 0x01 0x64 0x00).set 1 0x00).getD 1 0 = 0x00 ∧
    (parse_read_response ((read_response_frame 0x57 0x01 0x64 0x00).set 1 0x00)).isValue
      = false ∧
    parse_read_response ((read_response_frame 0x57 0x01 0x64 0x00).set 1 0x00) =
      ReadOutcome.nack 0x02 := by decide

/-- C8 amended: corrupting a single byte of a valid 9-byte
read-response frame, when the result does not parse to a `Value`, yields
`Malformed` (via the CRC mismatch when the `[0xAA, 0x09]` header
survives) — except when the corrupted buffer starts `[0xAA, 0x00]`, in
which case it is decoded as a NACK with the error code at offset 2. -/
theorem C8_corruption_detected (frame : List Nat) (i b : Nat)
    (hlen : frame.length = 9) (h0 : frame.getD 0 0 = 0xAA) (h1 : frame.getD 1 0 = 0x09)
    (hcrc : (frame.getD 8 0 <<< 8) ||| frame.getD 7 0 = crc16_modbus (frame.take 7))
    (hi : i < 9) (hb : b ≠ frame.getD i 0)
    (hnv : (parse_read_response (frame.set i b)).isValue = false) :
    parse_read_response (frame.set i b) = .malformed ∨
      ((frame.set i b).getD 0 0 = 0xAA ∧ (frame.set i b).getD 1 0 = 0x00 ∧
        parse_read_response (frame.set i b) = .nack ((frame.set i b).getD 2 0)) := by
  have hslen : (frame.set i b).length = 9 := by simp [hlen]
  rw [parse_read_response_eq_core (by omega) (by omega)] at hnv ⊢
  unfold parse_read_core at hnv ⊢
  by_cases hA : 9 ≤ (frame.set i b).length ∧ (frame.set i b).getD 0 0 = 0xAA ∧
      (frame.set i b).getD 1 0 = 0x09
  · rw [if_pos hA] at hnv ⊢
    by_cases hC : ((frame.set i b).getD ((frame.set i b).length - 1) 0 <<< 8) |||
        (frame.set i b).getD ((frame.set i b).length - 2) 0 ≠
        crc16_modbus ((frame.set i b).take ((frame.set i b).length - 2))
    · rw [if_pos hC]
      exact Or.inl rfl
    · rw [if_neg hC] at hnv
      simp [ReadOutcome.isValue] at hnv
  · rw [if_neg hA] at hnv ⊢
    by_cases hN : 3 ≤ (frame.set i b).length ∧ (frame.set i b).getD 0 0 = 0xAA ∧
        (frame.set i b).getD 1 0 = 0x00
    · rw [if_pos hN]
      refine Or.inr ⟨hN.2.1, hN.2.2, ?_⟩
      rw [if_pos (by omega : 2 < (frame.set i b).length)]
    · rw [if_neg hN]
      exact Or.inl rfl

set_option maxRecDepth 8192 in
/-- C8 witness: corrupting byte 2 of the valid frame for address 0x0157
/ value 100 from 0x02 to 0x03 leaves the header intact and is caught by
the CRC check, so the parse is `Malformed`. -/
theorem C8_corruption_detected_witness :
    parse_read_response ((read_response_frame 0x57 0x01 0x64 0x00).set 2 0x03) =
        .malformed ∨
      (((read_response_frame 0x57 0x01 0x64 0x00).set 2 0x03).getD 0 0 = 0xAA ∧
        ((read_response_frame 0x57 0x01 0x64 0x00).set 2 0x03).getD 1 0 = 0x00 ∧
        parse_read_response ((read_response_frame 0x57 0x01 0x64 0x00).set 2 0x03) =
          .nack (((read_response_frame 0x57 0x01 0x64 0x00).set 2 0x03).getD 2 0)) :=
  C8_corruption_detected (read_response_frame 0x57 0x01 0x64 0x00) 2 0x03
    (by decide) (by decide) (by decide) (by decide) (by decide) (by decide) (by decide)

/-- C9 counterexample: the 2-byte buffer `[0xAA, 0x00]` (shorter than 3
bytes, NACK header) parsed as a read response yields `Malformed`, not
`Nack 0xFF` — the claimed default-to-Unknown path is unreachable. -/
theorem C9_counterexample :
    parse_read_response [0xAA, 0x00] = ReadOutcome.malformed ∧
      ReadOutcome.malformed ≠ ReadOutcome.nack 0xFF := by decide

/-- C9 amended: a read-response buffer of length 3..100 that fails the
read-value header condition but starts `[0xAA, 0x00]` decodes as `Nack`
carrying the byte at offset 2 (an outcome distinct from `Malformed`);
buffers shorter than 3 bytes fall to `Malformed` instead, so the
default-Unknown clause never fires. -/
theorem C9_read_nack (resp : List Nat) (h3 : 3 ≤ resp.length) (h100 : resp.length ≤ 100)
    (hhdr : ¬(9 ≤ resp.length ∧ resp.getD 0 0 = 0xAA ∧ resp.getD 1 0 = 0x09))
    (h0 : resp.getD 0 0 = 0xAA) (h1 : resp.getD 1 0 = 0x00) :
    parse_read_response resp = .nack (resp.getD 2 0) := by
  rw [parse_read_response_eq_core (by omega) h100]
  unfold parse_read_core
  rw [if_neg hhdr, if_pos ⟨h3, h0, h1⟩, if_pos (by omega : 2 < resp.length)]

/-- C9 witness: the 3-byte NACK buffer `[0xAA, 0x00, 0x03]` parsed as a
read response yields `Nack 0x03`. -/
theorem C9_read_nack_witness :
    parse_read_response [0xAA, 0x00, 0x03] = ReadOutcome.nack 0x03 :=
  C9_read_nack [0xAA, 0x00, 0x03] (by decide) (by decide) (by decide) (by decide) (by decide)

/-- C10: in a buffer longer than 100 bytes whose only `[0xAA, 0x09]`
signature starts at offset `len - 9` (the valid frame occupies exactly
the last 9 bytes), the recovery scan — which iterates offsets
`0 .. len - 10` only — finds nothing, and the parse fails with no
decoded value. -/
theorem C10_tail_frame_missed (resp : List Nat) (hlen : 100 < resp.length)
    (hsigA : resp.getD (resp.length - 9) 0 = 0xAA)
    (hsig9 : resp.getD (resp.length - 8) 0 = 0x09)
    (honly : ∀ i, i < resp.length → i ≠ resp.length - 9 →
      ¬(resp.getD i 0 = 0xAA ∧ resp.getD (i + 1) 0 = 0x09)) :
    findReadFrame resp = none ∧ parse_read_response resp = .malformed := by
  have hnone : findReadFrame resp = none := by
    unfold findReadFrame
    apply findReadFrameAux_none
    intro j hj
    have h := honly j (by omega) (by omega)
    simpa using h
  exact ⟨hnone, parse_read_response_no_frame hlen hnone⟩

set_option maxRecDepth 8192 in
/-- C10 witness: 92 zero bytes followed by the valid frame for address
0x0157 / value 100 (101 bytes in total, frame in the last 9 bytes): the
scan fails and the parse is `Malformed`. -/
theorem C10_tail_frame_missed_witness :
    findReadFrame (List.replicate 92 0 ++ read_response_frame 0x57 0x01 0x64 0x00) = none ∧
    parse_read_response (List.replicate 92 0 ++ read_response_frame 0x57 0x01 0x64 0x00) =
      .malformed :=
  C10_tail_frame_missed (List.replicate 92 0 ++ read_response_frame 0x57 0x01 0x64 0x00)
    (by decide) (by decide) (by decide) (by decide)

end TinyBMS
